import Mathlib

set_option maxRecDepth 8192

/-!
Shallow embedding of the turn-processing pipeline of the Mushroom-Chatbot
repository (`src/mushroom_chatbot.py` and `src/final_mushroom_chatbot.py`).

The external collaborators are abstracted at their interface boundary:
`reSearch` stands for the library call `re.search(pattern, text)`;
`extractResult` is the outcome of `json.loads` on the structured vision
call's response text when that call is made (`none` = the parse raised);
`StreamSpec` describes the streaming provider's chunk sequence and whether
iteration over it raises.  Each run records, besides the yielded outputs
and the mutated globals, the image payloads sent for extraction and the
contents passed to the streaming call, so that "no provider call is made"
is a provable statement.
-/

namespace Mushroom

/-- Fragments of a conversation turn: either plain text or an image part
built from a file path (the embedding of `types.Part.from_bytes` keeps the
originating path as the identity of the image payload). -/
inductive Fragment where
  | text (s : String)
  | image (path : String)
deriving DecidableEq

/-- One turn of the conversation, as appended to `conversation_history`. -/
abbrev Turn := List Fragment

/-- The ordered conversation log (`conversation_history`). -/
abbrev History := List Turn

/-- Parsed structured JSON returned by the vision call, restricted to the six
schema keys; a missing key is `none` (`json.loads` does not itself enforce the
request schema, so any subset of keys can come back). -/
structure MushroomJson where
  common_name : Option String := none
  genus : Option String := none
  confidence : Option Rat := none
  visible : Option (List String) := none
  color : Option String := none
  edible : Option Bool := none
deriving DecidableEq

/-- Python truthiness of the parsed object (`bool(dict)`): true iff at least
one key is present. -/
def MushroomJson.truthy (m : MushroomJson) : Bool :=
  m.common_name.isSome || m.genus.isSome || m.confidence.isSome ||
    m.visible.isSome || m.color.isSome || m.edible.isSome

/-- All six schema-required fields are present (a fully populated
SpeciesGuess record). -/
def MushroomJson.full (m : MushroomJson) : Bool :=
  m.common_name.isSome && m.genus.isSome && m.confidence.isSome &&
    m.visible.isSome && m.color.isSome && m.edible.isSome

/-- Characters removed by Python `str.strip()` (the ASCII ones; the strings
this program strips contain only spaces and newlines at their ends). -/
def isPyWhitespace (c : Char) : Bool :=
  c = ' ' || c = '\t' || c = '\n' || c = '\r' || c = '\x0b' || c = '\x0c'

/-- Embedding of Python `str.strip()`. -/
def pyStrip (s : String) : String :=
  String.mk (((s.data.dropWhile isPyWhitespace).reverse.dropWhile isPyWhitespace).reverse)

/-- The confidence scaled by 100 and rounded to the nearest integer with
ties to even, as Python number formatting does: working on the numerator
`q.num * 100` over the denominator `q.den`, the remainder after floor
division is compared (doubled) against the denominator to decide the
rounding direction. -/
def roundHalfEven100 (q : Rat) : Int :=
  let n := q.num * 100
  let d := (q.den : Int)
  let f := Int.fdiv n d
  let r2 := 2 * (n - f * d)
  if r2 < d then f
  else if d < r2 then f + 1
  else if f % 2 = 0 then f else f + 1

/-- Embedding of the Python format specifier `:.0%` applied to the
confidence number. -/
def formatPercent0 (q : Rat) : String :=
  toString (roundHalfEven100 q) ++ "%"

/-- Embedding of the nested loops of `classify_question`: for each
`(category, patterns)` entry in table order, return the category as soon as
`re.search` matches one of its patterns against the lower-cased text.
`reSearch` abstracts the external `re.search` library call
(pattern, text ↦ a match was found). -/
def classifyFrom (reSearch : String → String → Bool) (text : String) :
    List (String × List String) → Option String
  | [] => none
  | (category, patterns) :: rest =>
      if patterns.any (fun pat => reSearch pat text.toLower) then some category
      else classifyFrom reSearch text rest

/-- One provider stream: the `chunk.text` field of each delivered chunk
(`none` models a chunk carrying no text), and whether iteration raises after
the listed chunks have been delivered (`fails` with no chunks models the
`generate_content_stream` call itself raising). -/
structure StreamSpec where
  chunks : List (Option String)
  fails : Bool
deriving DecidableEq

/-- Embedding of the accumulation loop
`for chunk in stream: if chunk.text: partial_text += chunk.text; yield partial_text`:
given the buffer so far, returns the list of yielded cumulative values and
the final buffer. -/
def streamAccum (buf : String) : List (Option String) → List String × String
  | [] => ([], buf)
  | c :: rest =>
      match c with
      | some s =>
          if s = "" then streamAccum buf rest
          else
            let buf2 := buf ++ s
            let out := streamAccum buf2 rest
            (buf2 :: out.1, out.2)
      | none => streamAccum buf rest

/-- Values yielded by the accumulation loop, starting from an empty buffer. -/
def streamYields (cs : List (Option String)) : List String :=
  (streamAccum "" cs).1

/-- Concatenation of the text carried by every chunk of the stream. -/
def streamConcat : List (Option String) → String
  | [] => ""
  | some s :: rest => s ++ streamConcat rest
  | none :: rest => streamConcat rest

/-- User fragments collected before the model calls: the raw text when its
strip is non-empty, then the image part for the first uploaded file when one
is present (`parts` in `mushroom_chatbot.py`, `contents` in
`final_mushroom_chatbot.py`). -/
def userParts (user_text : String) (imageFile : Option String) : Turn :=
  (if pyStrip user_text = "" then [] else [Fragment.text user_text]) ++
    (match imageFile with
     | some f => [Fragment.image f]
     | none => [])

end Mushroom

namespace MushroomChatbot

open Mushroom

/-- Risk pattern table `RISKY_PATTERNS` of `mushroom_chatbot.py`, in dict
insertion order. -/
def RISKY_PATTERNS : List (String × List String) :=
  [("medical",
    ["\\b(symptom|symptoms)\\b",
     "\\b(treatment|treatments)\\b",
     "\\b(cure|cures)\\b",
     "\\b(medicine|medicines)\\b",
     "\\b(disease|diseases)\\b",
     "\\b(poison|poisons|toxic|toxicity)\\b",
     "\\b(symptom|symtom)\\b",
     "\\b(behandling|behandlingar)\\b",
     "\\b(botemedel|botemedel)\\b",
     "\\b(medicin|mediciner)\\b",
     "\\b(sjukdom|sjukdomar)\\b",
     "\\b(gift|giftig|toxiskt|toxicitet)\\b"])]

/-- `classify_question` of `mushroom_chatbot.py`. -/
def classify_question (reSearch : String → String → Bool) (text : String) :
    Option String :=
  classifyFrom reSearch text RISKY_PATTERNS

/-- The fixed safety message of the medical intercept branch. -/
def medicalMsg : String :=
  "⚠️ I cannot provide advice about toxicity and medicin. Never eat a mushroom based only on this chat.”\n" ++
    "Always contact healthcare professionals. My focus is only on mycological characteristics."

/-- The fixed user-facing message substituted on a streaming failure. -/
def streamErrMsg : String :=
  "⚠️ A technical error occurred during model streaming. Please try again 🙏."

/-- The image-only summary template before `.strip()`, exactly as the
triple-quoted f-string (including its 8-space indentation). -/
def imageSummaryRaw (m : MushroomJson) : String :=
  "\n        • Suggested species: " ++ m.common_name.getD "?" ++
    " (genus " ++ m.genus.getD "?" ++ ")\n" ++
  "        • Color: " ++ m.color.getD "?" ++ "\n" ++
  "        • Visible traits: " ++ String.intercalate ", " (m.visible.getD []) ++ "\n" ++
  "        • Model confidence: " ++ formatPercent0 (m.confidence.getD 0) ++ "\n" ++
  "        ⚠️ NEVER eat a mushroom based only on this chat. Always consult experts or literature.\n        "

/-- The deterministic image-only summary yielded to the user
(`summary.strip()`). -/
def imageSummary (m : MushroomJson) : String :=
  pyStrip (imageSummaryRaw m)

/-- The synthetic context line injected before streaming when the turn has
both image and text and a truthy parsed guess (`json_summary`). -/
def jsonSummaryText (m : MushroomJson) : String :=
  "The image analysis suggests: " ++ m.common_name.getD "?" ++
    " (genus " ++ m.genus.getD "?" ++ "), color " ++ m.color.getD "?" ++
    ", visible traits " ++ String.intercalate ", " (m.visible.getD []) ++
    ", confidence " ++ formatPercent0 (m.confidence.getD 0) ++ "."

/-- The two process-wide globals of `mushroom_chatbot.py`. -/
structure ChatState where
  last_mushroom_json : Option MushroomJson
  conversation_history : History
deriving DecidableEq

/-- Everything one call of `response` produces: the yielded strings, the
globals after the call, the image payloads sent to the structured
`generate_content` call, and the contents passed to each
`generate_content_stream` call. -/
structure RunResult where
  outputs : List String
  state : ChatState
  extractionsSent : List String
  streamsSent : List History
deriving DecidableEq

/-- Embedding of the `try: stream = client.models.generate_content_stream(...)`
block: the stream is invoked on the current history; cumulative partial
buffers are yielded; on a normal end a buffer with non-empty strip is
appended as one assistant turn; on a raise the fixed error message is
yielded and appended instead of the buffer. -/
def streamSection (st : ChatState) (stream : StreamSpec) : RunResult :=
  let acc := streamAccum "" stream.chunks
  if stream.fails then
    { outputs := acc.1 ++ [streamErrMsg]
      state := { st with conversation_history :=
        st.conversation_history ++ [[Fragment.text streamErrMsg]] }
      extractionsSent := []
      streamsSent := [st.conversation_history] }
  else
    let hist3 := if pyStrip acc.2 = "" then st.conversation_history
      else st.conversation_history ++ [[Fragment.text acc.2]]
    { outputs := acc.1
      state := { st with conversation_history := hist3 }
      extractionsSent := []
      streamsSent := [st.conversation_history] }

/-- Embedding of `response` from `mushroom_chatbot.py`, with the first file
already selected (`imageFile` is `user_files[0]` when files are present,
`none` otherwise; the source only ever reads `user_files[0]`). -/
def responseCore (reSearch : String → String → Bool)
    (extractResult : Option MushroomJson) (stream : StreamSpec)
    (user_text : String) (imageFile : Option String)
    (st : ChatState) : RunResult :=
  if classify_question reSearch user_text = some "medical" then
    { outputs := [medicalMsg]
      state := { st with conversation_history :=
        st.conversation_history ++ [[Fragment.text medicalMsg]] }
      extractionsSent := []
      streamsSent := [] }
  else
    let parts := userParts user_text imageFile
    let hist1 := if parts = [] then st.conversation_history
      else st.conversation_history ++ [parts]
    match imageFile with
    | none =>
        streamSection
          { last_mushroom_json := st.last_mushroom_json
            conversation_history := hist1 } stream
    | some f =>
        match extractResult with
        | none =>
            let r := streamSection
              { last_mushroom_json := st.last_mushroom_json
                conversation_history := hist1 } stream
            { r with extractionsSent := [f] }
        | some info =>
            if pyStrip user_text = "" ∧ info.truthy = true then
              { outputs := [imageSummary info]
                state := { last_mushroom_json := some info
                           conversation_history :=
                             hist1 ++ [[Fragment.text (imageSummary info)]] }
                extractionsSent := [f]
                streamsSent := [] }
            else
              let hist2 :=
                if pyStrip user_text ≠ "" ∧ info.truthy = true then
                  hist1 ++ [[Fragment.text (jsonSummaryText info)]]
                else hist1
              let r := streamSection
                { last_mushroom_json := some info
                  conversation_history := hist2 } stream
              { r with extractionsSent := [f] }

/-- `response(inputs, history)` of `mushroom_chatbot.py`: `user_files` is the
list of uploaded file paths, of which the source only uses the first. -/
def response (reSearch : String → String → Bool)
    (extractResult : Option MushroomJson) (stream : StreamSpec)
    (user_text : String) (user_files : List String)
    (st : ChatState) : RunResult :=
  responseCore reSearch extractResult stream user_text user_files.head? st

end MushroomChatbot

namespace FinalMushroomChatbot

open Mushroom

/-- Risk pattern table `RISKY_PATTERNS` of `final_mushroom_chatbot.py`, in
dict insertion order: color, then edibility, then medical. -/
def RISKY_PATTERNS : List (String × List String) :=
  [("color",
    ["(what\\s+color\\s+is\\s+the\\s+mushroom)",
     "(mushroom\x27?s\\s+color)",
     "(vilken\\s+färg\\s+har\\s+svampen)"]),
   ("edibility",
    ["\\b(is\\s+it\\s+edible|kan\\s+man\\s+äta|eat\\s+this)\\b",
     "\\b(poisonous|giftig|toxic)\\b"]),
   ("medical",
    ["\\b(symptom|symtom|treatment|behandling|cure)\\b",
     "\\b(medicin|medicine|sjukdom)\\b"])]

/-- `classify_question` of `final_mushroom_chatbot.py`. -/
def classify_question (reSearch : String → String → Bool) (text : String) :
    Option String :=
  classifyFrom reSearch text RISKY_PATTERNS

/-- The fixed safety message of the color intercept branch. -/
def colorMsg : String :=
  "⚠️ Jag kan inte direkt säga vilken färg svampen har – ljus, ålder och miljö påverkar.\n" ++
    "📌 Beskriv istället själv (hatt, skivor/rör, fot, lukt osv.). " ++
    "Kom ihåg: ät aldrig en svamp baserat på en chatt."

/-- The fixed safety message of the edibility intercept branch. -/
def edibilityMsg : String :=
  "⚠️ Säkerhetsvarning: Frågor om ätlighet/giftighet kan vara farliga.\n" ++
    "Jag kan gärna beskriva synliga drag och riskfaktorer, " ++
    "men **du ska aldrig äta en svamp baserat på en chatt**.\n" ++
    "Kontakta alltid lokala experter eller litteratur."

/-- The fixed safety message of the medical intercept branch. -/
def medicalMsg : String :=
  "⚠️ Jag kan inte ge medicinska råd om svampförgiftning.\n" ++
    "Rådfråga alltid sjukvård. Mitt fokus är endast på mykologiska kännetecken."

/-- The fixed safety message of each intercepted category, as produced by
the `if`/`elif` chain of the safety filter. -/
def interceptMsg : String → String
  | "color" => colorMsg
  | "edibility" => edibilityMsg
  | _ => medicalMsg

/-- The fixed user-facing message substituted on a streaming failure. -/
def streamErrMsg : String :=
  "⚠️ A technical error occurred during model streaming. " ++
    "The conversation has been reset. Please try asking your question again 🙏."

/-- The image-only summary template before `.strip()` (this file's version
has no indentation inside the triple-quoted f-string). -/
def imageSummaryRaw (m : MushroomJson) : String :=
  "\n• Suggested species: " ++ m.common_name.getD "?" ++
    " (genus " ++ m.genus.getD "?" ++ ")\n" ++
  "• Color: " ++ m.color.getD "?" ++ "\n" ++
  "• Visible traits: " ++ String.intercalate ", " (m.visible.getD []) ++ "\n" ++
  "• Model confidence: " ++ formatPercent0 (m.confidence.getD 0) ++ "\n" ++
  "⚠️ NEVER eat a mushroom based only on this chat, always consult experts/literature.\n"

/-- The deterministic image-only summary yielded to the user
(`yield summary.strip()`). -/
def imageSummary (m : MushroomJson) : String :=
  pyStrip (imageSummaryRaw m)

/-- Everything one call of the final file's `response` produces.  This file
keeps no conversation history: `contents` is rebuilt per turn, and the only
global is `last_mushroom_json`. -/
structure RunResult where
  outputs : List String
  last_mushroom_json : Option MushroomJson
  extractionsSent : List String
  streamsSent : List (List Fragment)
deriving DecidableEq

/-- Embedding of the final file's `try: stream = ... except` block: yields
cumulative partial buffers and, on a raise, the fixed error message; nothing
is ever appended anywhere (this file has no conversation store). -/
def streamSection (contents : List Fragment) (lastJ : Option MushroomJson)
    (stream : StreamSpec) : RunResult :=
  let acc := streamAccum "" stream.chunks
  if stream.fails then
    { outputs := acc.1 ++ [streamErrMsg]
      last_mushroom_json := lastJ
      extractionsSent := []
      streamsSent := [contents] }
  else
    { outputs := acc.1
      last_mushroom_json := lastJ
      extractionsSent := []
      streamsSent := [contents] }

/-- Embedding of `response` from `final_mushroom_chatbot.py`, with the first
file already selected (`imageFile` is `user_files[0]` when files are
present). -/
def responseCore (reSearch : String → String → Bool)
    (extractResult : Option MushroomJson) (stream : StreamSpec)
    (user_text : String) (imageFile : Option String)
    (lastJ : Option MushroomJson) : RunResult :=
  let rc := classify_question reSearch user_text
  if rc = some "color" then
    { outputs := [colorMsg]
      last_mushroom_json := lastJ
      extractionsSent := []
      streamsSent := [] }
  else if rc = some "edibility" then
    { outputs := [edibilityMsg]
      last_mushroom_json := lastJ
      extractionsSent := []
      streamsSent := [] }
  else if rc = some "medical" then
    { outputs := [medicalMsg]
      last_mushroom_json := lastJ
      extractionsSent := []
      streamsSent := [] }
  else
    let contents := userParts user_text imageFile
    match imageFile with
    | none => streamSection contents lastJ stream
    | some f =>
        match extractResult with
        | none =>
            let r := streamSection contents lastJ stream
            { r with extractionsSent := [f] }
        | some info =>
            if pyStrip user_text = "" ∧ info.truthy = true then
              { outputs := [imageSummary info]
                last_mushroom_json := some info
                extractionsSent := [f]
                streamsSent := [] }
            else
              let r := streamSection contents (some info) stream
              { r with extractionsSent := [f] }

/-- `response(inputs, history)` of `final_mushroom_chatbot.py`. -/
def response (reSearch : String → String → Bool)
    (extractResult : Option MushroomJson) (stream : StreamSpec)
    (user_text : String) (user_files : List String)
    (lastJ : Option MushroomJson) : RunResult :=
  responseCore reSearch extractResult stream user_text user_files.head? lastJ

end FinalMushroomChatbot

namespace Mushroom

/-- A fully populated guess (the spec's Fly Agaric scenario), used as a
concrete evaluation input. -/
def flyAgaric : MushroomJson :=
  { common_name := some "Fly Agaric"
    genus := some "Amanita"
    confidence := some (Rat.divInt 82 100)
    visible := some ["red cap", "white spots"]
    color := some "red"
    edible := some false }

/-- A parsed object carrying only one of the six schema keys, used as a
concrete evaluation input for a schema-violating provider response. -/
def nameOnlyGuess : MushroomJson :=
  { common_name := some "Karl Johan" }

end Mushroom

namespace Mushroom

/-- The final buffer of the accumulation loop is the starting buffer followed
by the concatenation of all chunk texts. -/
theorem streamAccum_snd (cs : List (Option String)) :
    ∀ buf, (streamAccum buf cs).2 = buf ++ streamConcat cs := by
  induction cs with
  | nil =>
      intro buf
      simp [streamAccum, streamConcat]
  | cons c rest ih =>
      intro buf
      match c with
      | none => simp [streamAccum, streamConcat, ih]
      | some s =>
          by_cases h : s = ""
          · subst h
            simp [streamAccum, streamConcat, ih]
          · simp [streamAccum, streamConcat, h, ih, String.append_assoc]

/-- The accumulation loop yields nothing exactly when no chunk carries
non-empty text. -/
theorem streamAccum_fst_eq_nil (cs : List (Option String)) :
    ∀ buf, (streamAccum buf cs).1 = [] ↔ ∀ c ∈ cs, c.getD "" = "" := by
  induction cs with
  | nil =>
      intro buf
      simp [streamAccum]
  | cons c rest ih =>
      intro buf
      match c with
      | none => simp [streamAccum, ih]
      | some s =>
          by_cases h : s = ""
          · subst h
            simp [streamAccum, ih]
          · simp [streamAccum, h, ih]

/-- `classifyFrom` returns the first table entry one of whose patterns
matches the lower-cased text, and nothing when no pattern of any entry
matches. -/
theorem classifyFrom_eq_find (reSearch : String → String → Bool)
    (text : String) (l : List (String × List String)) :
    classifyFrom reSearch text l =
      (l.find? (fun cp => cp.2.any (fun pat => reSearch pat text.toLower))).map
        Prod.fst := by
  induction l with
  | nil => rfl
  | cons cp rest ih =>
      by_cases h : cp.2.any (fun pat => reSearch pat text.toLower)
      · simp [classifyFrom, List.find?, h]
      · simp [classifyFrom, List.find?, h, ih]

/-- A category returned by `classifyFrom` is a category of the table. -/
theorem classifyFrom_mem (reSearch : String → String → Bool)
    (text : String) (l : List (String × List String)) (c : String)
    (h : classifyFrom reSearch text l = some c) :
    ∃ ps, (c, ps) ∈ l := by
  induction l with
  | nil => simp [classifyFrom] at h
  | cons cp rest ih =>
      by_cases hm : cp.2.any (fun pat => reSearch pat text.toLower)
      · refine ⟨cp.2, ?_⟩
        simp [classifyFrom, hm] at h
        simp [← h]
      · simp only [classifyFrom, hm, if_false] at h
        obtain ⟨ps, hps⟩ := ih h
        exact ⟨ps, List.mem_cons_of_mem _ hps⟩

/-- A fully populated record is truthy. -/
theorem MushroomJson.truthy_of_full (m : MushroomJson) (h : m.full = true) :
    m.truthy = true := by
  simp only [MushroomJson.full, Bool.and_eq_true] at h
  simp [MushroomJson.truthy, h.1.1.1.1.1]

/-- The user fragments of a turn carrying an image are never empty. -/
theorem userParts_ne_nil (user_text : String) (f : String) :
    userParts user_text (some f) ≠ [] := by
  simp [userParts]

end Mushroom

namespace MushroomChatbot

open Mushroom

/-- The streaming section always makes exactly one stream call, on the
history current at the call. -/
theorem streamSection_streamsSent (st : ChatState) (stream : StreamSpec) :
    (streamSection st stream).streamsSent = [st.conversation_history] := by
  cases h : stream.fails <;> simp [streamSection, h]

/-- The streaming section never touches the stored guess. -/
theorem streamSection_last (st : ChatState) (stream : StreamSpec) :
    (streamSection st stream).state.last_mushroom_json = st.last_mushroom_json := by
  cases h : stream.fails <;> simp [streamSection, h]

/-- On a raising stream, the section yields the partial cumulative buffers
followed by the fixed error message, and appends exactly the error message
as one assistant turn. -/
theorem streamSection_fails_spec (st : ChatState) (stream : StreamSpec)
    (h : stream.fails = true) :
    streamSection st stream =
      { outputs := streamYields stream.chunks ++ [streamErrMsg]
        state := { st with conversation_history :=
          st.conversation_history ++ [[Fragment.text streamErrMsg]] }
        extractionsSent := []
        streamsSent := [st.conversation_history] } := by
  simp [streamSection, h, streamYields]

/-- On a normally ending stream whose buffer strips to something non-empty,
the section yields the cumulative buffers and appends the concatenation of
all chunk texts as one assistant turn. -/
theorem streamSection_ok_spec (st : ChatState) (stream : StreamSpec)
    (h : stream.fails = false)
    (hbuf : pyStrip (streamConcat stream.chunks) ≠ "") :
    streamSection st stream =
      { outputs := streamYields stream.chunks
        state := { st with conversation_history :=
          st.conversation_history ++ [[Fragment.text (streamConcat stream.chunks)]] }
        extractionsSent := []
        streamsSent := [st.conversation_history] } := by
  have h2 := streamAccum_snd stream.chunks ""
  rw [String.empty_append] at h2
  simp [streamSection, h, streamYields, h2, hbuf]

end MushroomChatbot

/-- Claim C8: `classify_question` of `final_mushroom_chatbot.py` is a pure
function of its input text; for every text (the empty string permitted) it
returns the first category, in the fixed table order of `RISKY_PATTERNS`,
having any rule that matches the lower-cased text (earlier categories
pre-empt later ones), and `none` exactly when no rule of any category
matches. -/
theorem c8_classify_first_matching_category
    (reSearch : String → String → Bool) (text : String) :
    FinalMushroomChatbot.classify_question reSearch text =
      (FinalMushroomChatbot.RISKY_PATTERNS.find?
        (fun cp => cp.2.any (fun pat => reSearch pat text.toLower))).map
          Prod.fst ∧
    (FinalMushroomChatbot.classify_question reSearch text = none ↔
      ∀ cp ∈ FinalMushroomChatbot.RISKY_PATTERNS, ∀ pat ∈ cp.2,
        reSearch pat text.toLower = false) := by
  have h := Mushroom.classifyFrom_eq_find reSearch text
    FinalMushroomChatbot.RISKY_PATTERNS
  refine ⟨h, ?_⟩
  rw [FinalMushroomChatbot.classify_question, h]
  simp only [Option.map_eq_none', List.find?_eq_none, List.any_eq_true,
    not_exists, not_and, Bool.not_eq_true]

/-- Claim C8 witness: with a match stub that always succeeds, the first
table category ("color") is returned. -/
theorem c8_classify_first_matching_category_witness :
    FinalMushroomChatbot.classify_question (fun _ _ => true) "is it edible" =
      some "color" := by
  have h := (c8_classify_first_matching_category (fun _ _ => true)
    "is it edible").1
  rw [h]
  decide

/-- Claim C1: a turn whose text classifies into a risk category with an
intercept policy yields exactly the fixed safety message for that category,
appends it (in the file that keeps a history), and terminates with zero
provider calls — no structured-extraction call and no streaming call — for
every input, in particular also when files (an image) are attached.  This
covers the "medical" intercept of `mushroom_chatbot.py` and every
intercepted category of `final_mushroom_chatbot.py`. -/
theorem c1_intercepted_turns_make_no_provider_calls
    (reSearch : String → String → Bool)
    (extractResult : Option Mushroom.MushroomJson) (stream : Mushroom.StreamSpec)
    (user_text : String) (user_files : List String)
    (st : MushroomChatbot.ChatState) (lastJ : Option Mushroom.MushroomJson) :
    (MushroomChatbot.classify_question reSearch user_text = some "medical" →
      MushroomChatbot.response reSearch extractResult stream user_text
          user_files st =
        { outputs := [MushroomChatbot.medicalMsg]
          state := { st with conversation_history := st.conversation_history ++
            [[Mushroom.Fragment.text MushroomChatbot.medicalMsg]] }
          extractionsSent := []
          streamsSent := [] }) ∧
    (∀ c, FinalMushroomChatbot.classify_question reSearch user_text = some c →
      FinalMushroomChatbot.response reSearch extractResult stream user_text
          user_files lastJ =
        { outputs := [FinalMushroomChatbot.interceptMsg c]
          last_mushroom_json := lastJ
          extractionsSent := []
          streamsSent := [] }) := by
  constructor
  · intro h
    simp [MushroomChatbot.response, MushroomChatbot.responseCore, h]
  · intro c h
    obtain ⟨ps, hmem⟩ := Mushroom.classifyFrom_mem reSearch user_text
      FinalMushroomChatbot.RISKY_PATTERNS c h
    simp only [FinalMushroomChatbot.RISKY_PATTERNS, List.mem_cons,
      List.mem_singleton, List.not_mem_nil, or_false, Prod.mk.injEq] at hmem
    rcases hmem with ⟨hc, -⟩ | ⟨hc, -⟩ | ⟨hc, -⟩ <;> subst hc <;>
      simp [FinalMushroomChatbot.response, FinalMushroomChatbot.responseCore,
        h, FinalMushroomChatbot.interceptMsg]

/-- Claim C1 witness: with a match stub that always reports a match, the
text "Is this poisonous?" is intercepted in both files and only the fixed
safety message comes out, with no provider call recorded, despite an
attached image file. -/
theorem c1_intercepted_turns_make_no_provider_calls_witness :
    (MushroomChatbot.response (fun _ _ => true) none ⟨[], false⟩
        "Is this poisonous?" ["shroom.jpg"] ⟨none, []⟩).outputs =
      [MushroomChatbot.medicalMsg] ∧
    (MushroomChatbot.response (fun _ _ => true) none ⟨[], false⟩
        "Is this poisonous?" ["shroom.jpg"] ⟨none, []⟩).extractionsSent = [] ∧
    (FinalMushroomChatbot.response (fun _ _ => true) none ⟨[], false⟩
        "Is this poisonous?" ["shroom.jpg"] none).outputs =
      [FinalMushroomChatbot.interceptMsg "color"] := by
  have h := c1_intercepted_turns_make_no_provider_calls (fun _ _ => true)
    none ⟨[], false⟩ "Is this poisonous?" ["shroom.jpg"] ⟨none, []⟩ none
  have h1 := h.1 (by decide)
  have h2 := h.2 "color" (by decide)
  rw [h1, h2]
  exact ⟨rfl, rfl, rfl⟩

/-- Claim C10: only the first uploaded file matters: a run with several
files equals the run with just the first file (same outputs, same state,
same provider calls — later files are never encoded, contribute no fragment,
and trigger no call), and at most the first file is ever sent for
extraction.  This holds for both pipeline files. -/
theorem c10_only_first_file_used
    (reSearch : String → String → Bool)
    (extractResult : Option Mushroom.MushroomJson) (stream : Mushroom.StreamSpec)
    (user_text : String) (f : String) (rest : List String)
    (st : MushroomChatbot.ChatState) (lastJ : Option Mushroom.MushroomJson) :
    MushroomChatbot.response reSearch extractResult stream user_text
        (f :: rest) st =
      MushroomChatbot.response reSearch extractResult stream user_text [f] st ∧
    FinalMushroomChatbot.response reSearch extractResult stream user_text
        (f :: rest) lastJ =
      FinalMushroomChatbot.response reSearch extractResult stream user_text
        [f] lastJ ∧
    ((MushroomChatbot.response reSearch extractResult stream user_text
        (f :: rest) st).extractionsSent = [] ∨
      (MushroomChatbot.response reSearch extractResult stream user_text
        (f :: rest) st).extractionsSent = [f]) ∧
    ((FinalMushroomChatbot.response reSearch extractResult stream user_text
        (f :: rest) lastJ).extractionsSent = [] ∨
      (FinalMushroomChatbot.response reSearch extractResult stream user_text
        (f :: rest) lastJ).extractionsSent = [f]) := by
  refine ⟨rfl, rfl, ?_, ?_⟩
  · by_cases hc : MushroomChatbot.classify_question reSearch user_text =
      some "medical"
    · left
      simp [MushroomChatbot.response, MushroomChatbot.responseCore, hc]
    · right
      cases extractResult with
      | none =>
          simp [MushroomChatbot.response, MushroomChatbot.responseCore, hc,
            MushroomChatbot.streamSection]
      | some info =>
          by_cases hb : Mushroom.pyStrip user_text = "" ∧ info.truthy = true
          · simp [MushroomChatbot.response, MushroomChatbot.responseCore, hc, hb]
          · simp [MushroomChatbot.response, MushroomChatbot.responseCore, hc,
              hb, MushroomChatbot.streamSection]
  · by_cases h1 : FinalMushroomChatbot.classify_question reSearch user_text =
      some "color"
    · left
      simp [FinalMushroomChatbot.response, FinalMushroomChatbot.responseCore, h1]
    · by_cases h2 : FinalMushroomChatbot.classify_question reSearch user_text =
        some "edibility"
      · left
        simp [FinalMushroomChatbot.response, FinalMushroomChatbot.responseCore,
          h1, h2]
      · by_cases h3 : FinalMushroomChatbot.classify_question reSearch user_text =
          some "medical"
        · left
          simp [FinalMushroomChatbot.response,
            FinalMushroomChatbot.responseCore, h1, h2, h3]
        · right
          cases extractResult with
          | none =>
              simp [FinalMushroomChatbot.response,
                FinalMushroomChatbot.responseCore, h1, h2, h3,
                FinalMushroomChatbot.streamSection]
          | some info =>
              by_cases hb : Mushroom.pyStrip user_text = "" ∧ info.truthy = true
              · simp [FinalMushroomChatbot.response,
                  FinalMushroomChatbot.responseCore, h1, h2, h3, hb]
              · simp [FinalMushroomChatbot.response,
                  FinalMushroomChatbot.responseCore, h1, h2, h3, hb,
                  FinalMushroomChatbot.streamSection]

/-- Claim C2: when the streaming provider raises — at the call or anywhere
during chunk iteration — the turn does not propagate the error: the fixed
technical-error message is yielded (once, after the cumulative partial
yields already emitted), the assistant turn appended to the history is that
message and not the partial buffer (the history equation shows the only
append after the stream call is the error turn), and the stream is invoked
exactly once, so the failure is not retried within the turn. -/
theorem c2_stream_failure_yields_fixed_error
    (reSearch : String → String → Bool)
    (extractResult : Option Mushroom.MushroomJson) (stream : Mushroom.StreamSpec)
    (user_text : String) (user_files : List String)
    (st : MushroomChatbot.ChatState)
    (hfail : stream.fails = true)
    (hcall : (MushroomChatbot.response reSearch extractResult stream user_text
      user_files st).streamsSent ≠ []) :
    (MushroomChatbot.response reSearch extractResult stream user_text
        user_files st).outputs =
      Mushroom.streamYields stream.chunks ++ [MushroomChatbot.streamErrMsg] ∧
    (MushroomChatbot.response reSearch extractResult stream user_text
        user_files st).streamsSent.length = 1 ∧
    (MushroomChatbot.response reSearch extractResult stream user_text
        user_files st).state.conversation_history =
      (MushroomChatbot.response reSearch extractResult stream user_text
        user_files st).streamsSent.headD [] ++
        [[Mushroom.Fragment.text MushroomChatbot.streamErrMsg]] := by
  by_cases hc : MushroomChatbot.classify_question reSearch user_text =
    some "medical"
  · exfalso
    apply hcall
    simp [MushroomChatbot.response, MushroomChatbot.responseCore, hc]
  · cases himg : user_files.head? with
    | none =>
        simp only [MushroomChatbot.response, himg] at hcall ⊢
        simp [MushroomChatbot.responseCore, hc,
          MushroomChatbot.streamSection_fails_spec _ _ hfail]
    | some f =>
        simp only [MushroomChatbot.response, himg] at hcall ⊢
        cases extractResult with
        | none =>
            simp [MushroomChatbot.responseCore, hc,
              MushroomChatbot.streamSection_fails_spec _ _ hfail]
        | some info =>
            by_cases hb : Mushroom.pyStrip user_text = "" ∧ info.truthy = true
            · exfalso
              apply hcall
              simp [MushroomChatbot.responseCore, hc, hb]
            · simp [MushroomChatbot.responseCore, hc, hb,
                MushroomChatbot.streamSection_fails_spec _ _ hfail]

/-- Claim C2 witness: a text-only turn whose stream raises after two chunks
yields the two partials then exactly the fixed error message, and the turn
appended to the history is the error message, not the buffer "ab". -/
theorem c2_stream_failure_yields_fixed_error_witness :
    (MushroomChatbot.response (fun _ _ => false) none
        ⟨[some "a", some "b"], true⟩ "hi" [] ⟨none, []⟩).outputs =
      Mushroom.streamYields [some "a", some "b"] ++
        [MushroomChatbot.streamErrMsg] ∧
    (MushroomChatbot.response (fun _ _ => false) none
        ⟨[some "a", some "b"], true⟩ "hi" [] ⟨none, []⟩).streamsSent.length = 1 ∧
    (MushroomChatbot.response (fun _ _ => false) none
        ⟨[some "a", some "b"], true⟩ "hi" [] ⟨none, []⟩).state.conversation_history =
      (MushroomChatbot.response (fun _ _ => false) none
        ⟨[some "a", some "b"], true⟩ "hi" [] ⟨none, []⟩).streamsSent.headD [] ++
        [[Mushroom.Fragment.text MushroomChatbot.streamErrMsg]] :=
  c2_stream_failure_yields_fixed_error (fun _ _ => false) none
    ⟨[some "a", some "b"], true⟩ "hi" [] ⟨none, []⟩ rfl (by decide)

/-- Claim C3: on an image-bearing, non-intercepted turn whose structured
response fails to parse, nothing raises past the extraction step (the run
is total and produces a result), the stored last guess is left exactly as
it was, and the turn proceeds to plain streaming generation on the
un-augmented context (one extraction call was made, one stream call
follows, with no synthetic summary turn). -/
theorem c3_extraction_parse_failure_is_recovered
    (reSearch : String → String → Bool) (stream : Mushroom.StreamSpec)
    (user_text : String) (f : String) (rest : List String)
    (st : MushroomChatbot.ChatState)
    (hmed : MushroomChatbot.classify_question reSearch user_text ≠
      some "medical") :
    (MushroomChatbot.response reSearch none stream user_text (f :: rest)
        st).state.last_mushroom_json = st.last_mushroom_json ∧
    (MushroomChatbot.response reSearch none stream user_text (f :: rest)
        st).extractionsSent = [f] ∧
    (MushroomChatbot.response reSearch none stream user_text (f :: rest)
        st).streamsSent =
      [st.conversation_history ++ [Mushroom.userParts user_text (some f)]] := by
  have hp := Mushroom.userParts_ne_nil user_text f
  simp [MushroomChatbot.response, MushroomChatbot.responseCore, hmed, hp,
    MushroomChatbot.streamSection_streamsSent, MushroomChatbot.streamSection_last]

/-- Claim C3 witness: invalid JSON from the extraction stub leaves the
previously stored full guess in place and the turn still issues its one
extraction call and one plain stream call. -/
theorem c3_extraction_parse_failure_is_recovered_witness :
    (MushroomChatbot.response (fun _ _ => false) none ⟨[], false⟩ ""
        ["cep.jpg"] ⟨some Mushroom.flyAgaric, []⟩).state.last_mushroom_json =
      some Mushroom.flyAgaric ∧
    (MushroomChatbot.response (fun _ _ => false) none ⟨[], false⟩ ""
        ["cep.jpg"] ⟨some Mushroom.flyAgaric, []⟩).extractionsSent = ["cep.jpg"] ∧
    (MushroomChatbot.response (fun _ _ => false) none ⟨[], false⟩ ""
        ["cep.jpg"] ⟨some Mushroom.flyAgaric, []⟩).streamsSent =
      [[Mushroom.userParts "" (some "cep.jpg")]] :=
  c3_extraction_parse_failure_is_recovered (fun _ _ => false) ⟨[], false⟩ ""
    "cep.jpg" [] ⟨some Mushroom.flyAgaric, []⟩ (by decide)

/-- Claim C4: an image-bearing, non-intercepted turn with no non-empty text
and a successful (fully populated) extraction produces exactly the
deterministic templated summary of the guess — species name, genus, color,
joined visible traits, confidence as a percentage, fixed disclaimer — as
its only output, appends it as the assistant turn after the user's image
turn, records the single extraction call, and makes no streaming call; the
output is a function of the guess alone, so the same guess always yields
the same summary. -/
theorem c4_image_only_turn_yields_templated_summary
    (reSearch : String → String → Bool) (g : Mushroom.MushroomJson)
    (stream : Mushroom.StreamSpec) (user_text : String) (f : String)
    (rest : List String) (st : MushroomChatbot.ChatState)
    (hmed : MushroomChatbot.classify_question reSearch user_text ≠
      some "medical")
    (htext : Mushroom.pyStrip user_text = "")
    (hfull : g.full = true) :
    MushroomChatbot.response reSearch (some g) stream user_text (f :: rest)
        st =
      { outputs := [MushroomChatbot.imageSummary g]
        state := { last_mushroom_json := some g
                   conversation_history := st.conversation_history ++
                     [[Mushroom.Fragment.image f]] ++
                     [[Mushroom.Fragment.text (MushroomChatbot.imageSummary g)]] }
        extractionsSent := [f]
        streamsSent := [] } := by
  have ht := Mushroom.MushroomJson.truthy_of_full g hfull
  simp [MushroomChatbot.response, MushroomChatbot.responseCore, hmed, htext,
    ht, Mushroom.userParts, List.append_assoc]

/-- Claim C4 witness: the spec's Fly Agaric scenario, with the summary
evaluated to its exact text — containing "Fly Agaric", "Amanita", the two
traits, "82%" and the fixed disclaimer line. -/
theorem c4_image_only_turn_yields_templated_summary_witness :
    MushroomChatbot.response (fun _ _ => false) (some Mushroom.flyAgaric)
        ⟨[], false⟩ "" ["amanita.jpg"] ⟨none, []⟩ =
      { outputs := [MushroomChatbot.imageSummary Mushroom.flyAgaric]
        state := { last_mushroom_json := some Mushroom.flyAgaric
                   conversation_history :=
                     [[Mushroom.Fragment.image "amanita.jpg"],
                      [Mushroom.Fragment.text
                        (MushroomChatbot.imageSummary Mushroom.flyAgaric)]] }
        extractionsSent := ["amanita.jpg"]
        streamsSent := [] } ∧
    MushroomChatbot.imageSummary Mushroom.flyAgaric =
      "• Suggested species: Fly Agaric (genus Amanita)\n        • Color: red\n        • Visible traits: red cap, white spots\n        • Model confidence: 82%\n        ⚠️ NEVER eat a mushroom based only on this chat. Always consult experts or literature." := by
  refine ⟨?_, by decide⟩
  have h := c4_image_only_turn_yields_templated_summary (fun _ _ => false)
    Mushroom.flyAgaric ⟨[], false⟩ "" "amanita.jpg" [] ⟨none, []⟩
    (by decide) (by decide) (by decide)
  exact h

/-- Claim C5 counterexample: a structured response that parses to an object
carrying only `common_name` is stored as the last guess even though it is
not fully populated — the code stores whatever `json.loads` returns and
never validates the six required fields locally. -/
theorem c5_partial_record_stored
    : (MushroomChatbot.response (fun _ _ => false) (some Mushroom.nameOnlyGuess)
        ⟨[], false⟩ "" ["cep.jpg"] ⟨none, []⟩).state.last_mushroom_json =
      some Mushroom.nameOnlyGuess ∧
      Mushroom.nameOnlyGuess.full = false := by
  decide

/-- Claim C5 (amended): on an image-bearing, non-intercepted turn, the
stored last guess becomes exactly whatever record the structured response
parses to — fully populated or not — and is left unchanged exactly when the
parse fails; full population is only requested from the provider through
the schema, never checked locally. -/
theorem c5_stored_guess_is_parse_result
    (reSearch : String → String → Bool)
    (extractResult : Option Mushroom.MushroomJson) (stream : Mushroom.StreamSpec)
    (user_text : String) (f : String) (rest : List String)
    (st : MushroomChatbot.ChatState)
    (hmed : MushroomChatbot.classify_question reSearch user_text ≠
      some "medical") :
    (MushroomChatbot.response reSearch extractResult stream user_text
        (f :: rest) st).state.last_mushroom_json =
      extractResult.elim st.last_mushroom_json some := by
  cases extractResult with
  | none =>
      simp [MushroomChatbot.response, MushroomChatbot.responseCore, hmed,
        MushroomChatbot.streamSection_last]
  | some info =>
      by_cases hb : Mushroom.pyStrip user_text = "" ∧ info.truthy = true
      · simp [MushroomChatbot.response, MushroomChatbot.responseCore, hmed, hb]
      · simp [MushroomChatbot.response, MushroomChatbot.responseCore, hmed,
          hb, MushroomChatbot.streamSection_last]

/-- Claim C5 witness: a partial parsed record overwrites the previously
stored full guess, while a parse failure leaves the full guess in place. -/
theorem c5_stored_guess_is_parse_result_witness :
    (MushroomChatbot.response (fun _ _ => false) (some Mushroom.nameOnlyGuess)
        ⟨[], false⟩ "" ["cep.jpg"]
        ⟨some Mushroom.flyAgaric, []⟩).state.last_mushroom_json =
      some Mushroom.nameOnlyGuess ∧
    (MushroomChatbot.response (fun _ _ => false) none ⟨[], false⟩ ""
        ["cep.jpg"] ⟨some Mushroom.flyAgaric, []⟩).state.last_mushroom_json =
      some Mushroom.flyAgaric :=
  ⟨c5_stored_guess_is_parse_result (fun _ _ => false)
      (some Mushroom.nameOnlyGuess) ⟨[], false⟩ "" "cep.jpg" []
      ⟨some Mushroom.flyAgaric, []⟩ (by decide),
    c5_stored_guess_is_parse_result (fun _ _ => false) none ⟨[], false⟩ ""
      "cep.jpg" [] ⟨some Mushroom.flyAgaric, []⟩ (by decide)⟩

/-- Claim C6: on a non-intercepted turn with both an image and non-empty
text whose extraction succeeded, the context handed to the single streaming
call is exactly the previously accumulated history, followed by the user's
turn, followed by one synthetic text turn summarizing the guess — nothing
else is modified by the injection step. -/
theorem c6_injects_one_summary_turn_before_streaming
    (reSearch : String → String → Bool) (info : Mushroom.MushroomJson)
    (stream : Mushroom.StreamSpec) (user_text : String) (f : String)
    (rest : List String) (st : MushroomChatbot.ChatState)
    (hmed : MushroomChatbot.classify_question reSearch user_text ≠
      some "medical")
    (htext : Mushroom.pyStrip user_text ≠ "")
    (hfull : info.full = true) :
    (MushroomChatbot.response reSearch (some info) stream user_text
        (f :: rest) st).streamsSent =
      [st.conversation_history ++
        [[Mushroom.Fragment.text user_text, Mushroom.Fragment.image f]] ++
        [[Mushroom.Fragment.text (MushroomChatbot.jsonSummaryText info)]]] := by
  have ht := Mushroom.MushroomJson.truthy_of_full info hfull
  simp [MushroomChatbot.response, MushroomChatbot.responseCore, hmed, htext,
    ht, Mushroom.userParts, MushroomChatbot.streamSection_streamsSent,
    List.append_assoc]

/-- Claim C6 witness: with a full guess and the text "What is this?", the
stream is called on user turn plus exactly one injected summary turn. -/
theorem c6_injects_one_summary_turn_before_streaming_witness :
    (MushroomChatbot.response (fun _ _ => false) (some Mushroom.flyAgaric)
        ⟨[], false⟩ "What is this?" ["amanita.jpg"] ⟨none, []⟩).streamsSent =
      [[[Mushroom.Fragment.text "What is this?",
         Mushroom.Fragment.image "amanita.jpg"],
        [Mushroom.Fragment.text
          (MushroomChatbot.jsonSummaryText Mushroom.flyAgaric)]]] :=
  c6_injects_one_summary_turn_before_streaming (fun _ _ => false)
    Mushroom.flyAgaric ⟨[], false⟩ "What is this?" "amanita.jpg" [] ⟨none, []⟩
    (by decide) (by decide) (by decide)

namespace MushroomChatbot

open Mushroom

/-- If the streaming section yields nothing at all, the stream ended
normally and no chunk carried non-empty text. -/
theorem streamSection_outputs_empty (st : ChatState) (stream : StreamSpec)
    (h : (streamSection st stream).outputs = []) :
    stream.fails = false ∧ ∀ c ∈ stream.chunks, c.getD "" = "" := by
  cases hf : stream.fails with
  | false =>
      simp only [streamSection, hf, Bool.false_eq_true, if_false] at h
      exact ⟨rfl, (Mushroom.streamAccum_fst_eq_nil stream.chunks "").1 h⟩
  | true =>
      simp [streamSection, hf] at h

end MushroomChatbot

/-- Claim C7 counterexample: a text-only turn whose stream ends normally
without delivering any text chunk produces an empty output sequence even
though the streaming call was made — the turn is left silently unanswered. -/
theorem c7_empty_stream_leaves_turn_unanswered
    : (MushroomChatbot.response (fun _ _ => false) none ⟨[], false⟩ "hello" []
        ⟨none, []⟩).outputs = [] ∧
      (MushroomChatbot.response (fun _ _ => false) none ⟨[], false⟩ "hello" []
        ⟨none, []⟩).streamsSent.length = 1 := by
  decide

/-- Claim C7 (amended): every turn yields at least one terminal message —
safety message, structured summary, generated text, or error text — except
in exactly one situation: the turn reached the streaming strategy and the
provider stream ended normally without ever carrying a non-empty text
chunk, in which case the output sequence is empty. -/
theorem c7_empty_output_only_from_textless_normal_stream
    (reSearch : String → String → Bool)
    (extractResult : Option Mushroom.MushroomJson) (stream : Mushroom.StreamSpec)
    (user_text : String) (user_files : List String)
    (st : MushroomChatbot.ChatState)
    (hempty : (MushroomChatbot.response reSearch extractResult stream user_text
      user_files st).outputs = []) :
    stream.fails = false ∧ (∀ c ∈ stream.chunks, c.getD "" = "") ∧
    (MushroomChatbot.response reSearch extractResult stream user_text
      user_files st).streamsSent.length = 1 := by
  by_cases hc : MushroomChatbot.classify_question reSearch user_text =
    some "medical"
  · simp [MushroomChatbot.response, MushroomChatbot.responseCore, hc] at hempty
  · cases himg : user_files.head? with
    | none =>
        simp only [MushroomChatbot.response, himg] at hempty ⊢
        simp only [MushroomChatbot.responseCore, hc, if_false,
          if_neg hc] at hempty ⊢
        obtain ⟨h1, h2⟩ := MushroomChatbot.streamSection_outputs_empty _ _ hempty
        exact ⟨h1, h2, by rw [MushroomChatbot.streamSection_streamsSent]; rfl⟩
    | some f =>
        simp only [MushroomChatbot.response, himg] at hempty ⊢
        cases extractResult with
        | none =>
            simp only [MushroomChatbot.responseCore, if_neg hc] at hempty ⊢
            obtain ⟨h1, h2⟩ :=
              MushroomChatbot.streamSection_outputs_empty _ _ hempty
            exact ⟨h1, h2, by rw [MushroomChatbot.streamSection_streamsSent]; rfl⟩
        | some info =>
            by_cases hb : Mushroom.pyStrip user_text = "" ∧ info.truthy = true
            · simp [MushroomChatbot.responseCore, hc, hb] at hempty
            · simp only [MushroomChatbot.responseCore, if_neg hc,
                if_neg hb] at hempty ⊢
              obtain ⟨h1, h2⟩ :=
                MushroomChatbot.streamSection_outputs_empty _ _ hempty
              exact ⟨h1, h2, by rw [MushroomChatbot.streamSection_streamsSent]; rfl⟩

/-- Claim C7 witness: applying the amended statement at the concrete
empty-stream run. -/
theorem c7_empty_output_only_from_textless_normal_stream_witness :
    (false = false ∧ (∀ c ∈ ([] : List (Option String)), c.getD "" = "") ∧
      (MushroomChatbot.response (fun _ _ => false) none ⟨[], false⟩ "hello" []
        ⟨none, []⟩).streamsSent.length = 1) :=
  c7_empty_output_only_from_textless_normal_stream (fun _ _ => false) none
    ⟨[], false⟩ "hello" [] ⟨none, []⟩ (by decide)

/-- Claim C9 counterexample: a stream that ends normally with the single
chunk "  " leaves a non-empty accumulated buffer, yet no assistant turn is
appended — the history after the turn is just the user turn the stream was
called on, because the code tests `partial_text.strip()`, not emptiness. -/
theorem c9_whitespace_buffer_discarded
    : Mushroom.streamConcat [some "  "] = "  " ∧
      ("  " : String).isEmpty = false ∧
      (MushroomChatbot.response (fun _ _ => false) none ⟨[some "  "], false⟩
        "hi" [] ⟨none, []⟩).streamsSent =
        [[[Mushroom.Fragment.text "hi"]]] ∧
      (MushroomChatbot.response (fun _ _ => false) none ⟨[some "  "], false⟩
        "hi" [] ⟨none, []⟩).state.conversation_history =
        [[Mushroom.Fragment.text "hi"]] := by
  decide

/-- Claim C9 (amended): when the provider stream of a streaming turn ends
normally and the accumulated buffer is non-empty after stripping
whitespace, it is appended to the conversation store as exactly one
assistant turn, whose text is the concatenation of all text chunks
received; a buffer that strips to nothing (in particular a whitespace-only
one) is discarded. -/
theorem c9_normal_end_appends_chunk_concatenation
    (reSearch : String → String → Bool)
    (extractResult : Option Mushroom.MushroomJson) (stream : Mushroom.StreamSpec)
    (user_text : String) (user_files : List String)
    (st : MushroomChatbot.ChatState)
    (hok : stream.fails = false)
    (hbuf : Mushroom.pyStrip (Mushroom.streamConcat stream.chunks) ≠ "")
    (hcall : (MushroomChatbot.response reSearch extractResult stream user_text
      user_files st).streamsSent ≠ []) :
    (MushroomChatbot.response reSearch extractResult stream user_text
        user_files st).streamsSent.length = 1 ∧
    (MushroomChatbot.response reSearch extractResult stream user_text
        user_files st).state.conversation_history =
      (MushroomChatbot.response reSearch extractResult stream user_text
        user_files st).streamsSent.headD [] ++
        [[Mushroom.Fragment.text (Mushroom.streamConcat stream.chunks)]] := by
  by_cases hc : MushroomChatbot.classify_question reSearch user_text =
    some "medical"
  · exfalso
    apply hcall
    simp [MushroomChatbot.response, MushroomChatbot.responseCore, hc]
  · cases himg : user_files.head? with
    | none =>
        simp only [MushroomChatbot.response, himg] at hcall ⊢
        simp [MushroomChatbot.responseCore, hc,
          MushroomChatbot.streamSection_ok_spec _ _ hok hbuf]
    | some f =>
        simp only [MushroomChatbot.response, himg] at hcall ⊢
        cases extractResult with
        | none =>
            simp [MushroomChatbot.responseCore, hc,
              MushroomChatbot.streamSection_ok_spec _ _ hok hbuf]
        | some info =>
            by_cases hb : Mushroom.pyStrip user_text = "" ∧ info.truthy = true
            · exfalso
              apply hcall
              simp [MushroomChatbot.responseCore, hc, hb]
            · simp [MushroomChatbot.responseCore, hc, hb,
                MushroomChatbot.streamSection_ok_spec _ _ hok hbuf]

/-- Claim C9 witness: chunks "He", a textless chunk, "llo", and "" end
normally; the single appended assistant turn carries "Hello". -/
theorem c9_normal_end_appends_chunk_concatenation_witness :
    (MushroomChatbot.response (fun _ _ => false) none
        ⟨[some "He", none, some "llo", some ""], false⟩ "hi" []
        ⟨none, []⟩).streamsSent.length = 1 ∧
    (MushroomChatbot.response (fun _ _ => false) none
        ⟨[some "He", none, some "llo", some ""], false⟩ "hi" []
        ⟨none, []⟩).state.conversation_history =
      (MushroomChatbot.response (fun _ _ => false) none
        ⟨[some "He", none, some "llo", some ""], false⟩ "hi" []
        ⟨none, []⟩).streamsSent.headD [] ++
        [[Mushroom.Fragment.text
          (Mushroom.streamConcat [some "He", none, some "llo", some ""])]] :=
  c9_normal_end_appends_chunk_concatenation (fun _ _ => false) none
    ⟨[some "He", none, some "llo", some ""], false⟩ "hi" [] ⟨none, []⟩
    rfl (by decide) (by decide)
